import Mathlib

set_option maxRecDepth 100000

/-!
Verification of the metadata-report bot (`src/bot.py`).

The core logic of the repository is pure string manipulation:
`format_size` (human-readable byte counts), `parse_mediainfo`
(the report formatter turning the raw `mediainfo` text into an
HTML document), plus the orchestration skeleton of `process_media`.
We embed these shallowly:

* Python strings are modelled as `List Char` (named `Str` below);
  `str.strip`, `str.split('\n')`, `str.startswith` and `str.replace`
  are reimplemented over `List Char`, faithful to Python semantics
  for the ASCII inputs that occur here.
* Python's float arithmetic in `format_size` divides by 1024, which
  only scales the exponent of an IEEE double, so for byte counts
  below 2^53 every intermediate value is exact; we therefore model
  the running value exactly as the pair (size, divisor) and render
  `f"{x:.2f}"` by rounding `100*size/divisor` to the nearest integer,
  ties to even — precisely what CPython's float formatting does on
  these exact values.
* The async orchestration in `process_media` is modelled as a pure
  function from an oracle of collaborator outcomes to the trace of
  observable actions (status edits, page creation, temp-file unlink).
-/

/-- Python strings, modelled as lists of characters. -/
abbrev Str := List Char

/-- The whitespace characters stripped by Python's `str.strip()`
(ASCII portion: space, tab, newline, carriage return, vertical tab,
form feed). -/
def isPySpace (c : Char) : Bool :=
  c = ' ' || c = '\t' || c = '\n' || c = '\r' ||
  c = Char.ofNat 11 || c = Char.ofNat 12

/-- `str.strip()`: drop leading and trailing whitespace. -/
def pyStrip (s : Str) : Str :=
  ((s.dropWhile isPySpace).reverse.dropWhile isPySpace).reverse

/-- Helper for `pySplitLines`: accumulate the current line (reversed). -/
def pySplitLinesAux : Str → Str → List Str
  | [], acc => [acc.reverse]
  | c :: rest, acc =>
    if c = '\n' then acc.reverse :: pySplitLinesAux rest []
    else pySplitLinesAux rest (c :: acc)

/-- `str.split('\n')`: split on newline characters.
Like Python, the empty string yields `[""]`. -/
def pySplitLines (s : Str) : List Str := pySplitLinesAux s []

/-- Fuel-driven worker for `pyReplace`; fuel bounds the number of
characters consumed, which is at most the input length. -/
def pyReplaceAux : Nat → Str → Str → Str → Str
  | 0, s, _, _ => s
  | fuel + 1, s, pat, rep =>
    match s with
    | [] => []
    | c :: rest =>
      if pat ≠ [] ∧ pat.isPrefixOf (c :: rest) then
        rep ++ pyReplaceAux fuel ((c :: rest).drop pat.length) pat rep
      else
        c :: pyReplaceAux fuel rest pat rep

/-- `str.replace(pat, rep)`: replace all non-overlapping occurrences,
scanning left to right (for the non-empty patterns used by the bot). -/
def pyReplace (s pat rep : Str) : Str := pyReplaceAux s.length s pat rep

/-- Does `pat` occur as a contiguous segment of `s`?  (Used to state
that a given fragment appears somewhere in a rendered document.) -/
def hasSeg (s pat : Str) : Bool :=
  match s with
  | [] => pat.isPrefixOf ([] : Str)
  | _ :: rest => pat.isPrefixOf s || hasSeg rest pat

/-- Rounding to the nearest integer of `a / b`, ties to even —
how CPython's `format(x, '.2f')` rounds the exact value of a float
(after pre-scaling by 100). Requires `b > 0` to be meaningful. -/
def round_half_even (a b : ℕ) : ℕ :=
  let d := a / b
  let r := a % b
  if 2 * r < b then d
  else if b < 2 * r then d + 1
  else if d % 2 = 0 then d else d + 1

/-- Render the exact rational `n / d` with two decimal places,
as Python's `f"{x:.2f}"` does for the exactly-representable values
arising in `format_size`. -/
def two_decimals (n d : ℕ) : String :=
  let h := round_half_even (100 * n) d
  toString (h / 100) ++ "." ++
    (if h % 100 < 10 then "0" ++ toString (h % 100) else toString (h % 100))

/-- The loop of `format_size` (src/bot.py lines 62-68): the Python
running float value `size / div` is represented exactly by the pair
`(size, div)`; each `size /= 1024` step multiplies the divisor. -/
def format_go (size : ℕ) (div : ℕ) : List String → String
  | [] => two_decimals size div ++ " PB"
  | u :: rest =>
    if size < 1024 * div then two_decimals size div ++ " " ++ u
    else format_go size (div * 1024) rest

/-- `format_size` from src/bot.py: format a byte count with unit
scaling `B, KB, MB, GB, TB`, capping at `PB`. -/
def format_size (size : ℕ) : String :=
  format_go size 1 ["B", "KB", "MB", "GB", "TB"]

/-- Spec-side comparator for the Size Formatter, following the spec's
words: the unit index is the smallest `k ≤ 4` with `n < 1024^(k+1)`,
capped at `5` (PB) for `n ≥ 1024^5`. -/
def spec_unit_index (n : ℕ) : ℕ :=
  if n < 1024 then 0
  else if n < 1024 ^ 2 then 1
  else if n < 1024 ^ 3 then 2
  else if n < 1024 ^ 4 then 3
  else if n < 1024 ^ 5 then 4
  else 5

/-- Unit names in order of increasing magnitude. -/
def spec_unit_name : ℕ → String
  | 0 => "B"
  | 1 => "KB"
  | 2 => "MB"
  | 3 => "GB"
  | 4 => "TB"
  | _ => "PB"

/-- The `SECTION_ICONS` dict of src/bot.py (lines 70-77), as an
ordered association list (Python dicts iterate in insertion order). -/
def SECTION_ICONS : List (Str × Str) :=
  [("General".data, "🗒".data),
   ("Video".data, "🎞".data),
   ("Audio".data, "🔊".data),
   ("Text".data, "🔠".data),
   ("Subtitle".data, "🔠".data),
   ("Menu".data, "🗃".data)]

/-- The inner `clean_value` of `parse_mediainfo` (lines 81-82):
escape angle brackets. -/
def clean_value (v : Str) : Str :=
  pyReplace (pyReplace v "<".data "&lt;".data) ">".data "&gt;".data

/-- The header-detection loop condition of lines 100-101: does some
`SECTION_ICONS` key occur as a prefix of the (stripped) line?  The
loop body does not depend on which key matched, only on whether one
did, so the dict iteration order is immaterial. -/
def isHeaderLine (line : Str) : Bool :=
  SECTION_ICONS.any (fun p => p.1.isPrefixOf line)

/-- Lines 102-103: a matched header line starting with `Text` has
every occurrence of `Text` replaced by `Subtitle`. -/
def py_rename (line : Str) : Str :=
  if "Text".data.isPrefixOf line then
    pyReplace line "Text".data "Subtitle".data
  else line

/-- Lines 106 / 123: the display label of a stored section header. -/
def display_of (cur : Str) : Str :=
  if "Text".data.isPrefixOf cur then
    pyReplace cur "Text".data "Subtitle".data
  else cur

/-- Lines 108-113 / 124-129: the four html parts a flushed section
contributes (sub-heading with icon, `<pre>`, joined content,
`</pre><br>`).  The icon is `SECTION_ICONS.get(current_section, '📄')`:
a lookup of the entire stored header line. -/
def flush_block (cur : Str) (content : List Str) : List Str :=
  ["<h4>".data ++ ((SECTION_ICONS.lookup cur).getD "📄".data) ++
     " ".data ++ display_of cur ++ "</h4>".data,
   "<pre>".data,
   List.intercalate "\n".data content,
   "</pre><br>".data]

/-- The loop state of `parse_mediainfo`: accumulated `html_parts`,
`current_section`, `section_content`. -/
structure PState where
  parts : List Str
  cur : Str
  content : List Str
  deriving DecidableEq

/-- One iteration of the `for line in mediainfo_output.split('\n')`
loop (lines 94-120): strip the line, skip it when blank, on a header
line flush the open section (if any) and open a new one, otherwise
append the escaped line to the open section's content (if any). -/
def py_step (st : PState) (raw : Str) : PState :=
  if pyStrip raw = [] then st
  else if isHeaderLine (pyStrip raw) then
    if st.cur ≠ [] then
      ⟨st.parts ++ flush_block st.cur st.content, py_rename (pyStrip raw), []⟩
    else
      ⟨st.parts, py_rename (pyStrip raw), []⟩
  else if st.cur ≠ [] then
    ⟨st.parts, st.cur, st.content ++ [clean_value (pyStrip raw)]⟩
  else st

/-- The initial `html_parts` (lines 84-89): title, escaped file name,
formatted size, separator. -/
def header_parts (name : Str) (size : ℕ) : List Str :=
  ["<h3>📁 File Information</h3>".data,
   "<p><strong>File Name:</strong> <em>".data ++ clean_value name ++
     "</em></p>".data,
   "<p><strong>File Size:</strong> <em>".data ++ (format_size size).data ++
     "</em></p>".data,
   "<hr>".data]

/-- The fixed disclaimer appended at line 131. -/
def disclaimer_part : Str :=
  "<p><em>Note: Analysis is based on initial portions of the file.</em></p>".data

/-- `parse_mediainfo` up to the final join: run the loop over the
split lines, apply the final flush (line 122: only when both the
current section and its content are non-empty), append the
disclaimer. -/
def parse_parts (input : Str) (name : Str) (size : ℕ) : List Str :=
  let st := (pySplitLines input).foldl py_step ⟨header_parts name size, [], []⟩
  (if st.cur ≠ [] ∧ st.content ≠ [] then
    st.parts ++ flush_block st.cur st.content
  else st.parts) ++ [disclaimer_part]

/-- `parse_mediainfo` from src/bot.py (lines 79-132): the full
rendered document, parts joined by newlines. -/
def parse_mediainfo (input : Str) (name : Str) (size : ℕ) : Str :=
  List.intercalate "\n".data (parse_parts input name size)

/-! ### A structured view of the scanning loop

To state properties about "the sections rendered in the output" we
re-express the single fold of `parse_mediainfo` as a scan producing
the list of flushed `(header line, content lines)` pairs, and prove
the two agree (`parse_parts_sections`).  `sstep`/`sections` are the
same state machine as `py_step`, recording the flushed pairs instead
of their rendered html. -/

/-- Scanning state: flushed sections, `current_section`,
`section_content`. -/
structure SState where
  secs : List (Str × List Str)
  cur : Str
  content : List Str
  deriving DecidableEq

/-- One loop iteration, recording flushed `(header, content)` pairs. -/
def sstep (st : SState) (raw : Str) : SState :=
  if pyStrip raw = [] then st
  else if isHeaderLine (pyStrip raw) then
    if st.cur ≠ [] then
      ⟨st.secs ++ [(st.cur, st.content)], py_rename (pyStrip raw), []⟩
    else
      ⟨st.secs, py_rename (pyStrip raw), []⟩
  else if st.cur ≠ [] then
    ⟨st.secs, st.cur, st.content ++ [clean_value (pyStrip raw)]⟩
  else st

/-- Run the scanning loop over the whole input. -/
def scan (input : Str) : SState :=
  (pySplitLines input).foldl sstep ⟨[], [], []⟩

/-- All sections rendered for a given input: the ones flushed during
the loop, plus the final one when it is open and non-empty (the
final-flush guard of line 122). -/
def sections (input : Str) : List (Str × List Str) :=
  (scan input).secs ++
    (if (scan input).cur ≠ [] ∧ (scan input).content ≠ [] then
      [((scan input).cur, (scan input).content)]
    else [])

/-- Rendering of one recorded section. -/
def render_sec (sc : Str × List Str) : List Str := flush_block sc.1 sc.2

/-- Invariant: every content line recorded by the scanner is free of
angle brackets. -/
def SClean (s : SState) : Prop :=
  (∀ sc ∈ s.secs, ∀ c ∈ sc.2, '<' ∉ c ∧ '>' ∉ c) ∧
  (∀ c ∈ s.content, '<' ∉ c ∧ '>' ∉ c)

/-! ### The orchestrator (`process_media`, src/bot.py lines 181-245)

The collaborators of `process_media` are external (Telegram,
the `mediainfo` executable, Telegraph); we model their outcomes as an
oracle and `process_media` as the trace of observable actions it
performs.  Per the source: `stream_media` (lines 26-44),
`get_mediainfo` (lines 46-60) and `create_telegraph_page`
(lines 134-161) each catch their own exceptions and return a
failure value instead of raising, so the only awaits inside the
`try` block that can raise are the `status_message.edit_text`
calls; the oracle's `edit_raises` field says which of those (indexed
by call site) raises.  The `try/finally` of lines 197-238 is
modelled by unconditionally appending the `unlink` action after the
inner body, and the outer `except` (lines 240-245) by appending the
unexpected-error edit when the body raised. -/

/-- Observable actions of one `process_media` invocation. -/
inductive Ev where
  | reply (s : String)
  | tempCreate
  | stream
  | analyze
  | page (doc : Str)
  | unlink
  | edit (s : String)
  deriving DecidableEq

/-- Outcomes of the external collaborators for one request. -/
structure Oracle where
  media_found : Bool
  stream_ok : Bool
  sub : Option (String × String)
  page_url : Option String
  edit_raises : ℕ → Bool

/-- `get_mediainfo` (lines 46-60): the subprocess either yields
`(stdout, stderr)` — stderr is only logged — or raises, in which
case the catch-all handler returns the empty string. -/
def get_mediainfo (sub : Option (String × String)) : String :=
  match sub with
  | some r => r.1
  | none => ""

/-- Fixed user-facing message strings of src/bot.py. -/
def processing_msg : String := "⏳ __Processing media info...__"

/-- Message for a request without an attached media item (line 187). -/
def no_media_msg : String :=
  "❌ __Please send a media file or reply to one with /mediainfo__"

/-- Message for a failed sample download (line 200). -/
def dl_fail_msg : String := "❌ __Failed to download media sample!__"

/-- Progress message before invoking the analysis tool (line 203). -/
def analyzing_msg : String := "🔍 __Analyzing media info...__"

/-- Message for empty analysis output (line 207). -/
def analyze_fail_msg : String := "❌ __Failed to analyze media!__"

/-- Progress message before generating the report (line 210). -/
def generating_msg : String := "📝 __Generating report...__"

/-- Message for a failed Telegraph publication (line 232). -/
def report_fail_msg : String := "❌ __Failed to generate report!__"

/-- Message of the outer exception handler (lines 242-245). -/
def unexpected_msg : String :=
  "❌ __An error occurred while processing the media!__\nPlease try again later."

/-- The success message of lines 223-230. -/
def success_text (name : String) (size : ℕ) (url : String) : String :=
  "📊 **Media Information**\n\n📁 **File:** `" ++ name ++
    "`\n💾 **Size:** `" ++ format_size size ++
    "`\n\n👉 **Detailed info:** " ++ url

/-- The body of the inner `try` (lines 198-232), excluding the temp
file creation: returns the actions performed and whether an
exception escaped the body (reaching `finally` and the outer
`except`). -/
def inner_body (o : Oracle) (name : String) (size : ℕ) : List Ev × Bool :=
  if o.stream_ok = false then
    ([Ev.stream, Ev.edit dl_fail_msg], o.edit_raises 1)
  else if o.edit_raises 0 then
    ([Ev.stream, Ev.edit analyzing_msg], true)
  else if get_mediainfo o.sub = "" then
    ([Ev.stream, Ev.edit analyzing_msg, Ev.analyze, Ev.edit analyze_fail_msg],
     o.edit_raises 2)
  else if o.edit_raises 3 then
    ([Ev.stream, Ev.edit analyzing_msg, Ev.analyze, Ev.edit generating_msg],
     true)
  else
    match o.page_url with
    | some url =>
      ([Ev.stream, Ev.edit analyzing_msg, Ev.analyze, Ev.edit generating_msg,
        Ev.page (parse_mediainfo (get_mediainfo o.sub).data name.data size),
        Ev.edit (success_text name size url)], o.edit_raises 4)
    | none =>
      ([Ev.stream, Ev.edit analyzing_msg, Ev.analyze, Ev.edit generating_msg,
        Ev.page (parse_mediainfo (get_mediainfo o.sub).data name.data size),
        Ev.edit report_fail_msg], o.edit_raises 5)

/-- `process_media` (lines 181-245) as a trace of observable actions:
initial status reply, the no-media early return, else temp-file
creation, the inner body, the `finally` unlink, and the outer
`except` handler's edit when the body raised. -/
def process_media (o : Oracle) (name : String) (size : ℕ) : List Ev :=
  Ev.reply processing_msg ::
    (if o.media_found = false then
      [Ev.edit no_media_msg]
    else
      Ev.tempCreate ::
        ((inner_body o name size).1 ++ [Ev.unlink] ++
         (if (inner_body o name size).2 then [Ev.edit unexpected_msg]
          else [])))

/-- Does the trace contain a page-creation call? -/
def has_page : List Ev → Bool
  | [] => false
  | Ev.page _ :: _ => true
  | _ :: rest => has_page rest

/-! ### Helper lemmas -/

lemma py_step_sstep (p : List Str) (s : SState) (raw : Str) :
    py_step ⟨p ++ s.secs.flatMap render_sec, s.cur, s.content⟩ raw =
    ⟨p ++ (sstep s raw).secs.flatMap render_sec,
     (sstep s raw).cur, (sstep s raw).content⟩ := by
  simp only [py_step, sstep]
  split_ifs <;>
    simp [render_sec, List.flatMap_append, List.append_assoc]

lemma foldl_py_step_eq (ls : List Str) (p : List Str) (s : SState) :
    ls.foldl py_step ⟨p ++ s.secs.flatMap render_sec, s.cur, s.content⟩ =
    ⟨p ++ ((ls.foldl sstep s).secs).flatMap render_sec,
     (ls.foldl sstep s).cur, (ls.foldl sstep s).content⟩ := by
  induction ls generalizing s with
  | nil => rfl
  | cons l ls ih =>
    simp only [List.foldl_cons]
    rw [py_step_sstep]
    exact ih (sstep s l)

/-- The single-pass formatter agrees with the structured view: the
document is the header, the rendered sections in order, and the
disclaimer. -/
lemma parse_parts_sections (input name : Str) (size : ℕ) :
    parse_parts input name size =
    header_parts name size ++ (sections input).flatMap render_sec ++
      [disclaimer_part] := by
  have h := foldl_py_step_eq (pySplitLines input) (header_parts name size)
    ⟨[], [], []⟩
  simp only [List.flatMap_nil, List.append_nil] at h
  simp only [parse_parts, sections, scan, h]
  split_ifs with hc <;>
    simp [render_sec, List.flatMap_append, List.append_assoc]

lemma not_mem_pyReplaceAux (fuel : ℕ) (s pat rep : Str) (c : Char)
    (hs : c ∉ s) (hr : c ∉ rep) : c ∉ pyReplaceAux fuel s pat rep := by
  induction fuel generalizing s with
  | zero => simpa [pyReplaceAux] using hs
  | succ fuel ih =>
    cases s with
    | nil => simp [pyReplaceAux]
    | cons d rest =>
      simp only [pyReplaceAux]
      split_ifs with h
      · simp only [List.mem_append]
        push_neg
        exact ⟨hr, ih _ (fun hm => hs (List.mem_of_mem_drop hm))⟩
      · simp only [List.mem_cons]
        push_neg
        exact ⟨fun he => hs (by simp [he]),
          ih rest (fun hm => hs (List.mem_cons_of_mem _ hm))⟩

lemma not_mem_pyReplaceAux_single (fuel : ℕ) (s rep : Str) (c : Char)
    (hr : c ∉ rep) (hfuel : s.length ≤ fuel) :
    c ∉ pyReplaceAux fuel s [c] rep := by
  induction fuel generalizing s with
  | zero =>
    cases s with
    | nil => simp [pyReplaceAux]
    | cons d rest => simp at hfuel
  | succ fuel ih =>
    cases s with
    | nil => simp [pyReplaceAux]
    | cons d rest =>
      simp only [pyReplaceAux]
      split_ifs with h
      · simp only [List.mem_append]
        push_neg
        refine ⟨hr, ?_⟩
        have hdrop : (d :: rest).drop ([c] : Str).length = rest := by simp
        rw [hdrop]
        exact ih rest (Nat.le_of_succ_le_succ (by simpa using hfuel))
      · have hd : c ≠ d := by
          intro he
          exact h ⟨by simp, by simp [he, List.isPrefixOf]⟩
        simp only [List.mem_cons]
        push_neg
        exact ⟨hd, ih rest (Nat.le_of_succ_le_succ (by simpa using hfuel))⟩

/-- The escaped form of a line contains no `<` character. -/
lemma lt_not_mem_clean_value (v : Str) : '<' ∉ clean_value v := by
  have h1 : '<' ∉ pyReplace v "<".data "&lt;".data := by
    rw [pyReplace]
    exact not_mem_pyReplaceAux_single _ _ _ _ (by decide) (Nat.le_refl _)
  rw [clean_value, pyReplace]
  exact not_mem_pyReplaceAux _ _ _ _ _ h1 (by decide)

/-- The escaped form of a line contains no `>` character. -/
lemma gt_not_mem_clean_value (v : Str) : '>' ∉ clean_value v := by
  rw [clean_value, pyReplace]
  exact not_mem_pyReplaceAux_single _ _ _ _ (by decide) (Nat.le_refl _)

lemma sstep_clean (s : SState) (raw : Str) (h : SClean s) :
    SClean (sstep s raw) := by
  obtain ⟨h1, h2⟩ := h
  simp only [sstep]
  split_ifs with hb hh hc hc
  · exact ⟨h1, h2⟩
  · refine ⟨?_, by simp⟩
    intro sc hsc
    rcases List.mem_append.1 hsc with hm | hm
    · exact h1 sc hm
    · rcases List.mem_singleton.1 hm with rfl
      exact h2
  · exact ⟨h1, by simp⟩
  · refine ⟨h1, ?_⟩
    intro c hc2
    rcases List.mem_append.1 hc2 with hm | hm
    · exact h2 c hm
    · rcases List.mem_singleton.1 hm with rfl
      exact ⟨lt_not_mem_clean_value _, gt_not_mem_clean_value _⟩
  · exact ⟨h1, h2⟩

lemma foldl_sstep_clean (ls : List Str) (s : SState) (h : SClean s) :
    SClean (ls.foldl sstep s) := by
  induction ls generalizing s with
  | nil => exact h
  | cons l ls ih => exact ih _ (sstep_clean s l h)

/-- Every content line of every rendered section is free of angle
brackets. -/
lemma sections_clean (input : Str) :
    ∀ sc ∈ sections input, ∀ c ∈ sc.2, '<' ∉ c ∧ '>' ∉ c := by
  have h := foldl_sstep_clean (pySplitLines input) ⟨[], [], []⟩
    ⟨by simp, by simp⟩
  intro sc hsc
  rcases List.mem_append.1 hsc with hm | hm
  · exact h.1 sc hm
  · rcases Decidable.em ((scan input).cur ≠ [] ∧ (scan input).content ≠ [])
      with hc | hc
    · rw [if_pos hc] at hm
      rcases List.mem_singleton.1 hm with rfl
      exact h.2
    · rw [if_neg hc] at hm
      simp at hm

/-- A scan over lines none of which is a section header leaves the
formatter state unchanged. -/
lemma foldl_py_step_no_header (ls : List Str) (p : List Str)
    (h : ∀ l ∈ ls, isHeaderLine (pyStrip l) = false) :
    ls.foldl py_step ⟨p, [], []⟩ = ⟨p, [], []⟩ := by
  induction ls with
  | nil => rfl
  | cons l ls ih =>
    have hstep : py_step ⟨p, [], []⟩ l = ⟨p, [], []⟩ := by
      simp [py_step, h l (by simp)]
    simp only [List.foldl_cons, hstep]
    exact ih (fun x hx => h x (List.mem_cons_of_mem _ hx))

/-! ### Claim theorems -/

/-- C1 counterexample: for the input `"General\nVideo\nFormat: AVC"`,
the `General` section header has zero content lines before the next
header, yet a full block for it — sub-heading `<h4>🗒 General</h4>`
with icon and an (empty) preformatted element — appears in the
rendered output: the mid-scan flush of lines 105-113 has no
emptiness guard. -/
theorem C1_counterexample :
    parse_mediainfo "General\nVideo\nFormat: AVC".data "clip.mp4".data 1 =
      ("<h3>📁 File Information</h3>\n" ++
       "<p><strong>File Name:</strong> <em>clip.mp4</em></p>\n" ++
       "<p><strong>File Size:</strong> <em>1.00 B</em></p>\n" ++
       "<hr>\n" ++
       "<h4>🗒 General</h4>\n<pre>\n\n</pre><br>\n" ++
       "<h4>🎞 Video</h4>\n<pre>\nFormat: AVC\n</pre><br>\n" ++
       "<p><em>Note: Analysis is based on initial portions of the file.</em></p>").data ∧
    hasSeg
      (parse_mediainfo "General\nVideo\nFormat: AVC".data "clip.mp4".data 1)
      "<h4>🗒 General</h4>".data = true := by
  decide

/-- C1 amended: a section header with zero accumulated content lines
is dropped only at end of input (the final flush of line 122 checks
`section_content`); a header with zero content lines followed by
another header IS rendered, as a block with an empty preformatted
element.  Shown on `"General\nVideo"` (empty `General` mid-input is
rendered, trailing empty `Video` is dropped) and `"Video"` (trailing
empty section dropped entirely), for every file name and size. -/
theorem C1_amended (name : Str) (size : ℕ) :
    parse_mediainfo "General\nVideo".data name size =
      List.intercalate "\n".data
        (header_parts name size ++
         ["<h4>🗒 General</h4>".data, "<pre>".data, [], "</pre><br>".data] ++
         [disclaimer_part]) ∧
    parse_mediainfo "Video".data name size =
      List.intercalate "\n".data (header_parts name size ++ [disclaimer_part]) ∧
    sections "General\nVideo".data = [("General".data, [])] ∧
    sections "Video".data = [] := by
  refine ⟨rfl, rfl, by decide, by decide⟩

/-- C2 counterexample: a section header line is rendered verbatim,
without angle-bracket escaping: for input `"Menu <b>\nItem: <i>"`
the output contains the raw `<h4>📄 Menu <b></h4>` (heading
unescaped) even though the content line is escaped to
`Item: &lt;i&gt;`. -/
theorem C2_counterexample :
    parse_mediainfo "Menu <b>\nItem: <i>".data "clip.mp4".data 2 =
      ("<h3>📁 File Information</h3>\n" ++
       "<p><strong>File Name:</strong> <em>clip.mp4</em></p>\n" ++
       "<p><strong>File Size:</strong> <em>2.00 B</em></p>\n" ++
       "<hr>\n" ++
       "<h4>📄 Menu <b></h4>\n<pre>\nItem: &lt;i&gt;\n</pre><br>\n" ++
       "<p><em>Note: Analysis is based on initial portions of the file.</em></p>").data ∧
    hasSeg (parse_mediainfo "Menu <b>\nItem: <i>".data "clip.mp4".data 2)
      "<h4>📄 Menu <b></h4>".data = true := by
  decide

/-- C2 amended: the display file name and every section content line
are escaped (the escaped forms contain no `<` or `>` character), but
section heading lines are rendered verbatim, not escaped.  The first
conjunct exhibits the document structure: header (whose file-name
line is built from `clean_value name`), rendered sections, and
disclaimer; the last states that every content line of every
rendered section is angle-bracket-free. -/
theorem C2_amended (input name : Str) (size : ℕ) :
    parse_mediainfo input name size =
      List.intercalate "\n".data
        (header_parts name size ++ (sections input).flatMap render_sec ++
          [disclaimer_part]) ∧
    ('<' ∉ clean_value name ∧ '>' ∉ clean_value name) ∧
    (∀ sc ∈ sections input, ∀ c ∈ sc.2, '<' ∉ c ∧ '>' ∉ c) := by
  refine ⟨?_, ⟨lt_not_mem_clean_value name, gt_not_mem_clean_value name⟩,
    sections_clean input⟩
  unfold parse_mediainfo
  rw [parse_parts_sections]

/-- C2 amended, witness: at the concrete input
`"Menu <b2>\nItem: <i>"`, the theorem yields that the stored content
line `"Item: &lt;i&gt;"` contains no angle bracket. -/
theorem C2_amended_witness :
    '<' ∉ ("Item: &lt;i&gt;".data : Str) ∧
    '>' ∉ ("Item: &lt;i&gt;".data : Str) :=
  (C2_amended "Menu <b2>\nItem: <i>".data "n".data 0).2.2
    ("Menu <b2>".data, ["Item: &lt;i&gt;".data]) (by decide)
    "Item: &lt;i&gt;".data (by decide)

/-- C3 counterexample: the header line `"Audio #1"` is matched by the
recognized label `Audio` (it is a section header), yet its rendered
sub-heading carries the default glyph 📄, not Audio's 🔊: the icon is
looked up with the entire header line, which is not a key of
`SECTION_ICONS`. -/
theorem C3_counterexample :
    isHeaderLine "Audio #1".data = true ∧
    parse_mediainfo "Audio #1\nFormat: AAC".data "clip.mp4".data 3 =
      ("<h3>📁 File Information</h3>\n" ++
       "<p><strong>File Name:</strong> <em>clip.mp4</em></p>\n" ++
       "<p><strong>File Size:</strong> <em>3.00 B</em></p>\n" ++
       "<hr>\n" ++
       "<h4>📄 Audio #1</h4>\n<pre>\nFormat: AAC\n</pre><br>\n" ++
       "<p><em>Note: Analysis is based on initial portions of the file.</em></p>").data ∧
    hasSeg (parse_mediainfo "Audio #1\nFormat: AAC".data "clip.mp4".data 3)
      "<h4>📄 Audio #1</h4>".data = true := by
  decide

/-- C3 amended: the icon is chosen by looking up the entire (renamed)
header line in the mapping: a section whose header line is exactly a
recognized label gets that label's icon (`Audio` ↦ 🔊), while a
header line that merely starts with a recognized label (`"Audio #1"`,
still matched and still a section) falls back to the default 📄. -/
theorem C3_amended (name : Str) (size : ℕ) :
    parse_mediainfo "Audio\nFormat: AAC".data name size =
      List.intercalate "\n".data
        (header_parts name size ++
         ["<h4>🔊 Audio</h4>".data, "<pre>".data, "Format: AAC".data,
          "</pre><br>".data] ++ [disclaimer_part]) ∧
    isHeaderLine "Audio #1".data = true ∧
    parse_mediainfo "Audio #1\nFormat: AAC".data name size =
      List.intercalate "\n".data
        (header_parts name size ++
         ["<h4>📄 Audio #1</h4>".data, "<pre>".data, "Format: AAC".data,
          "</pre><br>".data] ++ [disclaimer_part]) := by
  refine ⟨rfl, by decide, rfl⟩

/-- C4: for the five-line sample input with name `clip.mp4` and size
5242880, the output is exactly the header block (showing `clip.mp4`
and `5.00 MB`), a General section with exactly `Format: MPEG-4`, a
Video section with exactly `Format: AVC` and `Width: 1920`, and the
disclaimer — full string equality, so no other section blocks. -/
theorem C4_concrete_report :
    parse_mediainfo
      "General\nFormat: MPEG-4\nVideo\nFormat: AVC\nWidth: 1920".data
      "clip.mp4".data 5242880 =
    ("<h3>📁 File Information</h3>\n" ++
     "<p><strong>File Name:</strong> <em>clip.mp4</em></p>\n" ++
     "<p><strong>File Size:</strong> <em>5.00 MB</em></p>\n" ++
     "<hr>\n" ++
     "<h4>🗒 General</h4>\n<pre>\nFormat: MPEG-4\n</pre><br>\n" ++
     "<h4>🎞 Video</h4>\n<pre>\nFormat: AVC\nWidth: 1920\n</pre><br>\n" ++
     "<p><em>Note: Analysis is based on initial portions of the file.</em></p>").data := by
  decide

/-- C5 counterexample: at `n = 1048575` (one byte below 1024²) the
code returns `"1024.00 KB"`: the exact value 1023.999… rounds up to
a displayed value of 1024.00, which is not `< 1024`, so the unit is
NOT the smallest one whose displayed value is below 1024 (that would
be MB with `"1.00 MB"`). -/
theorem C5_counterexample :
    format_size 1048575 = "1024.00 KB" ∧
    format_size 1048575 ≠ "1.00 MB" := by
  decide

/-- C5 amended: the unit is chosen from the exact running value, not
the displayed one: it is the smallest of B, KB, MB, GB, TB for which
the exact quotient `n / 1024^k` is `< 1024` (equivalently
`n < 1024^(k+1)`), with every `n ≥ 1024^5` displayed in PB; the value
is that quotient rendered to two decimal places (ties to even), which
can display as `1024.00` when the exact quotient is just below 1024.
The three example values hold as stated. -/
theorem C5_amended (n : ℕ) :
    format_size n =
      two_decimals n (1024 ^ spec_unit_index n) ++ " " ++
        spec_unit_name (spec_unit_index n) ∧
    format_size 0 = "0.00 B" ∧
    format_size 1536 = "1.50 KB" ∧
    format_size 1073741824 = "1.00 GB" := by
  refine ⟨?_, by decide, by decide, by decide⟩
  simp only [format_size, format_go, spec_unit_index]
  norm_num
  split_ifs <;> first
    | omega
    | (simp [spec_unit_name]; done)
    | (simp only [spec_unit_name]; rw [String.append_assoc]; rfl)

/-- C6: when no line of the input starts (after stripping) with a
recognized section label — in particular for the empty input and for
blank-only input — the output is exactly the header block followed by
the disclaimer, with zero section blocks; all content lines before
any header are dropped. -/
theorem C6_no_header_no_sections (input name : Str) (size : ℕ)
    (h : ∀ l ∈ pySplitLines input, isHeaderLine (pyStrip l) = false) :
    parse_mediainfo input name size =
      List.intercalate "\n".data
        (header_parts name size ++ [disclaimer_part]) := by
  unfold parse_mediainfo parse_parts
  rw [foldl_py_step_no_header _ _ h]
  simp

/-- C6 witness: the empty input and an input with only unrecognized
content and blank lines each produce just header + disclaimer. -/
theorem C6_witness :
    parse_mediainfo "".data "clip.mp4".data 0 =
      List.intercalate "\n".data
        (header_parts "clip.mp4".data 0 ++ [disclaimer_part]) ∧
    parse_mediainfo "hello\n \nworld".data "clip.mp4".data 7 =
      List.intercalate "\n".data
        (header_parts "clip.mp4".data 7 ++ [disclaimer_part]) :=
  ⟨C6_no_header_no_sections _ _ _ (by decide),
   C6_no_header_no_sections _ _ _ (by decide)⟩

/-- C7: a header line `"Text"` is matched by the `Text` prefix rule
(first matching entry of `SECTION_ICONS` is the `Text` one), the
section is rendered with display label `Subtitle` and icon 🔠, and
the renaming affects display only: the lines following it attach to
the section exactly as for any other label. -/
theorem C7_text_section (name : Str) (size : ℕ) :
    SECTION_ICONS.find? (fun p => p.1.isPrefixOf "Text".data) =
      some ("Text".data, "🔠".data) ∧
    parse_mediainfo "Text\nLanguage: eng".data name size =
      List.intercalate "\n".data
        (header_parts name size ++
         ["<h4>🔠 Subtitle</h4>".data, "<pre>".data, "Language: eng".data,
          "</pre><br>".data] ++ [disclaimer_part]) ∧
    sections "Text\nA: 1\nB: 2".data =
      [("Subtitle".data, ["A: 1".data, "B: 2".data])] ∧
    (sections "Text\nA: 1\nB: 2".data).map Prod.snd =
      (sections "Menu\nA: 1\nB: 2".data).map Prod.snd := by
  refine ⟨by decide, rfl, by decide, by decide⟩

/-- C8: when the analysis invoker returns the empty string (and the
pipeline actually reaches it: media present, sample downloaded, the
preceding status edit did not raise), the orchestrator reports the
fixed analysis-failure message and never performs a page-creation
call, for any page oracle and any behavior of the later edits. -/
theorem C8_empty_analysis (o : Oracle) (name : String) (size : ℕ)
    (hm : o.media_found = true) (hs : o.stream_ok = true)
    (he : o.edit_raises 0 = false)
    (hmi : get_mediainfo o.sub = "") :
    Ev.edit analyze_fail_msg ∈ process_media o name size ∧
    has_page (process_media o name size) = false := by
  constructor
  · simp [process_media, inner_body, hm, hs, he, hmi]
  · cases h2 : o.edit_raises 2 <;>
      simp [process_media, inner_body, hm, hs, he, hmi, h2, has_page]

/-- C8 witness: with a subprocess that succeeds with empty stdout,
the failure message is reported and no page is created. -/
theorem C8_witness :
    Ev.edit analyze_fail_msg ∈
      process_media ⟨true, true, some ("", "boom"), none, fun _ => false⟩
        "f.mkv" 0 ∧
    has_page
      (process_media ⟨true, true, some ("", "boom"), none, fun _ => false⟩
        "f.mkv" 0) = false :=
  C8_empty_analysis ⟨true, true, some ("", "boom"), none, fun _ => false⟩
    "f.mkv" 0 rfl rfl rfl rfl

/-- C9: on every execution in which the temporary sample file was
created, the unlink of that file appears in the trace — whatever the
download, analysis and publication outcomes and whichever status
edit raises (the `finally` of lines 234-238 runs on success, on each
early return, and on an escaping exception). -/
theorem C9_unlink (o : Oracle) (name : String) (size : ℕ)
    (h : Ev.tempCreate ∈ process_media o name size) :
    Ev.unlink ∈ process_media o name size := by
  cases hm : o.media_found with
  | false => simp [process_media, hm] at h
  | true => simp [process_media, hm]

/-- C9 witness: a fully successful run both creates and unlinks the
temporary file. -/
theorem C9_witness :
    Ev.unlink ∈
      process_media
        ⟨true, true, some ("out", ""), some "https://graph.org/x",
         fun _ => false⟩ "a.mp4" 10 :=
  C9_unlink
    ⟨true, true, some ("out", ""), some "https://graph.org/x",
     fun _ => false⟩ "a.mp4" 10 (by decide)

/-- C10: the analysis invoker never propagates an exception: when the
subprocess raises, `get_mediainfo` returns the empty string, which is
indistinguishable from empty tool output (identical traces), and —
provided the pipeline reaches the analysis and the status edits
themselves do not raise — the requester sees the analysis-failure
message, not the unexpected-error message, and no page is created. -/
theorem C10_invoker (o : Oracle) (name : String) (size : ℕ)
    (hsub : o.sub = none)
    (hm : o.media_found = true) (hs : o.stream_ok = true)
    (he : ∀ k, o.edit_raises k = false) :
    get_mediainfo o.sub = "" ∧
    process_media o name size =
      process_media ⟨o.media_found, o.stream_ok, some ("", "err"),
        o.page_url, o.edit_raises⟩ name size ∧
    Ev.edit analyze_fail_msg ∈ process_media o name size ∧
    Ev.edit unexpected_msg ∉ process_media o name size ∧
    has_page (process_media o name size) = false := by
  have hmi : get_mediainfo o.sub = "" := by rw [hsub]; rfl
  refine ⟨hmi, ?_, ?_, ?_, ?_⟩
  · simp [process_media, inner_body, hm, hs, he, hmi, hsub, get_mediainfo]
  · simp [process_media, inner_body, hm, hs, he, hmi]
  · simp only [process_media, inner_body, hm, hs, he, hmi]
    simp [he]
    decide
  · simp [process_media, inner_body, hm, hs, he, hmi, has_page]

/-- C10 witness: the crashed-subprocess oracle, concretely. -/
theorem C10_witness :
    get_mediainfo (Oracle.sub ⟨true, true, none, none, fun _ => false⟩) = "" ∧
    process_media ⟨true, true, none, none, fun _ => false⟩ "g.bin" 5 =
      process_media ⟨true, true, some ("", "err"), none, fun _ => false⟩
        "g.bin" 5 ∧
    Ev.edit analyze_fail_msg ∈
      process_media ⟨true, true, none, none, fun _ => false⟩ "g.bin" 5 ∧
    Ev.edit unexpected_msg ∉
      process_media ⟨true, true, none, none, fun _ => false⟩ "g.bin" 5 ∧
    has_page
      (process_media ⟨true, true, none, none, fun _ => false⟩ "g.bin" 5) =
      false :=
  C10_invoker ⟨true, true, none, none, fun _ => false⟩ "g.bin" 5 rfl rfl rfl
    (fun _ => rfl)
